import Mathlib

/-!
Shallow embedding of the `average.x` plugin of this repository:
`src/aiida_quantumespresso/calculations/average.py` (input composition and
staging plan) and `src/aiida_quantumespresso/parsers/average.py` (output
decoding).  Numeric values are modelled by exact rationals; the tokenised
content of text files is modelled at the granularity the code inspects it.
-/

namespace AiidaQE

/-- Conversion factor in Angstrom per Bohr.  The source uses `ase.units.Bohr`
(CODATA 2014); the spec states the value 0.52917721067, which agrees with the
float computed by `ase.units` to nine significant digits.  Modelled as the
exact decimal. -/
def Bohr : ℚ := 0.52917721067

/-- Conversion factor in eV per Rydberg.  The source uses `ase.units.Ry`
(CODATA 2014); the spec states the value 13.605693009, which agrees with the
float computed by `ase.units` to nine significant digits.  Modelled as the
exact decimal. -/
def Ry : ℚ := 13.605693009

/-- Left-pad a string with zeros to the given width. -/
def padZeros (w : Nat) (s : String) : String :=
  String.mk (List.replicate (w - s.length) '0') ++ s

/-- The rational value denoted by the decimal literal that Python fixed-point
formatting with eight decimal digits produces for `q`: the nearest multiple
of 10 ^ (-8). -/
def value8f (q : ℚ) : ℚ :=
  (round (q * 100000000) : ℚ) / 100000000

/-- Render an integer count of 10 ^ (-8) units as a fixed-point decimal
with eight fractional digits: sign, integer part, point, zero-padded
fractional digits. -/
def formatFixed8 (n : Int) : String :=
  (if n < 0 then "-" else "")
    ++ toString (n.natAbs / 100000000) ++ "."
    ++ padZeros 8 (toString (n.natAbs % 100000000))

/-- Python fixed-point formatting with eight decimal digits (format spec
`.8f`), modelled over exact rationals: round to the nearest eighth decimal
and render the fixed-point digits.  (Python rounds the nearest binary
double half to even; away from ties and double rounding error the two
agree.) -/
def format8f (q : ℚ) : String :=
  formatFixed8 (round (q * 100000000))

namespace AverageCalculation

/-- Fixed input script file name (`AverageCalculation._DEFAULT_INPUT_FILE`). -/
def _DEFAULT_INPUT_FILE : String := "avg.in"

/-- Fixed stdout capture file name (`AverageCalculation._DEFAULT_OUTPUT_FILE`). -/
def _DEFAULT_OUTPUT_FILE : String := "avg.out"

/-- Fixed input data file name (`AverageCalculation._DEFAULT_INPUT_DATA_FILE`). -/
def _DEFAULT_INPUT_DATA_FILE : String := "aiida.filplot"

/-- Fixed output data file name (`AverageCalculation._DEFAULT_OUTPUT_DATA_FILE`). -/
def _DEFAULT_OUTPUT_DATA_FILE : String := "avg.dat"

/-- The typed inputs consumed by `AverageCalculation.prepare_for_submission`:
`npts` and `average_axis` are `orm.Int` nodes (Python integers), `window_size`
an `orm.Float` (modelled as an exact rational), and the two metadata options
default to `avg.in` and `avg.out`. -/
structure AverageInputs where
  npts : Int
  average_axis : Int
  window_size : ℚ
  input_filename : String
  output_filename : String
deriving DecidableEq

/-- Embedding of `aiida.common.datastructures.CodeInfo` as used by the
source: stdin and stdout redirection file names. -/
structure CodeInfo where
  stdin_name : String
  stdout_name : String
deriving DecidableEq

/-- Embedding of `aiida.common.datastructures.CalcInfo` as used by the
source: the staging lists and the code information. -/
structure CalcInfo where
  remote_copy_list : List String
  local_copy_list : List String
  retrieve_list : List String
  retrieve_temporary_list : List String
  codes_info : List CodeInfo
deriving DecidableEq

/-- The six lines written to the input script file by
`prepare_for_submission`, in order.  Each `infile.write` call in the source
writes exactly one line (the written text ends in a single newline and
contains no other newline), so the file content is these lines joined with
newlines, with a trailing newline. -/
def inputFileLines (inputs : AverageInputs) : List String :=
  ["1",
   _DEFAULT_INPUT_DATA_FILE,
   "1.D0",
   toString inputs.npts,
   toString inputs.average_axis,
   format8f (inputs.window_size / Bohr)]

/-- Embedding of `AverageCalculation.prepare_for_submission`: returns the
`CalcInfo` staging plan and the lines of the written input script file. -/
def prepare_for_submission (inputs : AverageInputs) : CalcInfo × List String :=
  let codeinfo : CodeInfo := ⟨inputs.input_filename, inputs.output_filename⟩
  let calcinfo : CalcInfo :=
    { remote_copy_list := [_DEFAULT_INPUT_DATA_FILE]
      local_copy_list := []
      retrieve_list := [inputs.output_filename]
      retrieve_temporary_list := [_DEFAULT_OUTPUT_DATA_FILE]
      codes_info := [codeinfo] }
  (calcinfo, inputFileLines inputs)

end AverageCalculation

/-- The exit codes registered by `AverageCalculation.define`, by stable name.
Constructors carry the fields substituted into the message template by
`.format(...)` in the parser. -/
inductive ExitLabel where
  | ERROR_NO_RETRIEVED_TEMPORARY_FOLDER
  | ERROR_OUTPUT_STDOUT_MISSING
  | ERROR_OUTPUT_XML_MISSING
  | ERROR_OUTPUT_STDOUT_READ
  | ERROR_OUTPUT_STDOUT_PARSE
  | ERROR_OUTPUT_STDOUT_INCOMPLETE
  | ERROR_OUT_OF_WALLTIME_INTERRUPTED
  | ERROR_UNEXPECTED_PARSER_EXCEPTION (exception : String)
  | ERROR_OUTPUT_DATAFILE_MISSING (filename : String)
  | ERROR_OUTPUT_DATAFILE_READ (filename : String)
  | ERROR_UNSUPPORTED_DATAFILE_FORMAT
  | ERROR_OUTPUT_DATAFILE_PARSE (filename : String) (exception : String)
deriving DecidableEq

/-- The numeric status of each exit code, as registered by
`AverageCalculation.define`. -/
def ExitLabel.status : ExitLabel → Nat
  | .ERROR_NO_RETRIEVED_TEMPORARY_FOLDER => 301
  | .ERROR_OUTPUT_STDOUT_MISSING => 302
  | .ERROR_OUTPUT_XML_MISSING => 303
  | .ERROR_OUTPUT_STDOUT_READ => 310
  | .ERROR_OUTPUT_STDOUT_PARSE => 311
  | .ERROR_OUTPUT_STDOUT_INCOMPLETE => 312
  | .ERROR_OUT_OF_WALLTIME_INTERRUPTED => 340
  | .ERROR_UNEXPECTED_PARSER_EXCEPTION _ => 350
  | .ERROR_OUTPUT_DATAFILE_MISSING _ => 330
  | .ERROR_OUTPUT_DATAFILE_READ _ => 331
  | .ERROR_UNSUPPORTED_DATAFILE_FORMAT => 332
  | .ERROR_OUTPUT_DATAFILE_PARSE _ _ => 333

/-- The human-readable message of each exit code, with the template fields
substituted, as registered by `AverageCalculation.define`. -/
def ExitLabel.message : ExitLabel → String
  | .ERROR_NO_RETRIEVED_TEMPORARY_FOLDER =>
      "The retrieved temporary folder could not be accessed."
  | .ERROR_OUTPUT_STDOUT_MISSING =>
      "The retrieved folder did not contain the required stdout output file."
  | .ERROR_OUTPUT_XML_MISSING =>
      "The parent folder did not contain the required XML output file."
  | .ERROR_OUTPUT_STDOUT_READ =>
      "The stdout output file could not be read."
  | .ERROR_OUTPUT_STDOUT_PARSE =>
      "The stdout output file could not be parsed."
  | .ERROR_OUTPUT_STDOUT_INCOMPLETE =>
      "The stdout output file was incomplete."
  | .ERROR_OUT_OF_WALLTIME_INTERRUPTED =>
      "The calculation stopped prematurely because it ran out of walltime but the job was killed by the scheduler before the files were safely written to disk for a potential restart."
  | .ERROR_UNEXPECTED_PARSER_EXCEPTION e =>
      "The parser raised an unexpected exception: " ++ e
  | .ERROR_OUTPUT_DATAFILE_MISSING f =>
      "The formatted data output file `" ++ f ++ "` was not present in the retrieved (temporary) folder."
  | .ERROR_OUTPUT_DATAFILE_READ f =>
      "The formatted data output file `" ++ f ++ "` could not be read."
  | .ERROR_UNSUPPORTED_DATAFILE_FORMAT =>
      "The data file format is not supported by the parser"
  | .ERROR_OUTPUT_DATAFILE_PARSE f e =>
      "The formatted data output file `" ++ f ++ "` could not be parsed: " ++ e

namespace AverageParser

/-- Base errors that the shared stdout-log grammar can flag in the logs
while parsing the stdout file.  Modelled from the spec: the grammar and
`BaseParser.parse_stdout_from_retrieved` live in `parsers/base.py`, which is
not among the sources here; the spec lists exactly these five flaggable base
errors (stdout missing, unreadable, malformed, incomplete, and
walltime-interrupted). -/
inductive StdoutBaseError where
  | stdout_missing
  | stdout_read
  | stdout_parse
  | stdout_incomplete
  | out_of_walltime
deriving DecidableEq

/-- The exit code corresponding to a flagged base error. -/
def StdoutBaseError.exitLabel : StdoutBaseError → ExitLabel
  | .stdout_missing => .ERROR_OUTPUT_STDOUT_MISSING
  | .stdout_read => .ERROR_OUTPUT_STDOUT_READ
  | .stdout_parse => .ERROR_OUTPUT_STDOUT_PARSE
  | .stdout_incomplete => .ERROR_OUTPUT_STDOUT_INCOMPLETE
  | .out_of_walltime => .ERROR_OUT_OF_WALLTIME_INTERRUPTED

/-- Modelled from the spec: `BaseParser.check_base_errors` (in
`parsers/base.py`, not among the sources here) inspects the error log
produced by the stdout grammar and returns the exit code of the first
flagged base error, if any. -/
def check_base_errors (logs : List StdoutBaseError) : Option ExitLabel :=
  (logs.head?).map StdoutBaseError.exitLabel

/-- The state of a file in the retrieved temporary folder, at the
granularity the parser observes it.  `content` carries the whitespace-split
numeric table of a readable text file: one entry per non-empty non-comment
line, one token per entry, where a token is `some q` when Python float
conversion accepts it and `none` when it is non-numeric.  `unreadable` means
opening or reading raises an `OSError`; `raisesOther` means the open/read
raises a non-`OSError` exception with the given description.  A file name
not present in the folder at all raises `FileNotFoundError`, which is a
subclass of `OSError`. -/
inductive FileState where
  | unreadable
  | raisesOther (desc : String)
  | content (rows : List (List (Option ℚ)))
deriving DecidableEq

/-- A retrieved temporary folder: an association of file names to states. -/
abbrev Folder := List (String × FileState)

/-- The possible shapes of the array returned by `np.loadtxt` with the
default `ndmin=0`: size-one axes are squeezed, so a single-row single-column
file yields a zero-dimensional scalar, a single row, a single column or an
empty file yield a one-dimensional array, and otherwise the table is
two-dimensional. -/
inductive NpArray where
  | scalar (x : ℚ)
  | oneD (xs : List ℚ)
  | twoD (rows : List (List ℚ))
deriving DecidableEq

/-- Convert one line of tokens with Python float conversion; `none` when
some token of the line is non-numeric. -/
def tokenRowValues : List (Option ℚ) → Option (List ℚ)
  | [] => some []
  | none :: _ => none
  | some q :: rest => (tokenRowValues rest).map (fun qs => q :: qs)

/-- Convert every token of the table with Python float conversion; `none`
when some token is non-numeric. -/
def tokenValues : List (List (Option ℚ)) → Option (List (List ℚ))
  | [] => some []
  | row :: rest =>
    match tokenRowValues row with
    | none => none
    | some r => (tokenValues rest).map (fun rs => r :: rs)

/-- Embedding of `np.loadtxt` on the tokenised file content: fails on a
non-numeric token or on a row whose column count differs from the first
row, and otherwise returns the squeezed array (see `NpArray`). -/
def loadtxt (rows : List (List (Option ℚ))) : Except String NpArray :=
  match tokenValues rows with
  | none => .error "could not convert string to float"
  | some vals =>
    match vals with
    | [] => .ok (.oneD [])
    | r :: rs =>
      if rs.all (fun row => row.length = r.length) then
        match rs with
        | [] =>
          if r.length = 1 then .ok (.scalar (r.headD 0)) else .ok (.oneD r)
        | _ :: _ =>
          if r.length = 1 then .ok (.oneD (vals.map (fun row => row.headD 0)))
          else .ok (.twoD vals)
      else .error "Wrong number of columns"

/-- Embedding of `AverageParser.parse_data`: `np.loadtxt` the file, then
`data[:, 0] *= Bohr` and `data[:, 1:] *= Ry`.  On a zero- or
one-dimensional result (empty file, single row, or single column) the
column indexing `data[:, 0]` raises `IndexError`, modelled as an error
value; any error raised here is an ordinary exception, not an `OSError`. -/
def parse_data (rows : List (List (Option ℚ))) : Except String (List (List ℚ)) :=
  match loadtxt rows with
  | .error e => .error e
  | .ok (.scalar _) => .error "too many indices for array"
  | .ok (.oneD _) => .error "too many indices for array"
  | .ok (.twoD data) =>
      .ok (data.map (fun row =>
        match row with
        | [] => []
        | x :: rest => x * Bohr :: rest.map (fun y => y * Ry)))

/-- The inputs observed by `AverageParser.parse`: the base errors flagged by
the stdout grammar, the key/value record it parsed from stdout (opaque to
this parser and forwarded as `output_parameters`), and the retrieved
temporary folder when the caller passed one in `kwargs`. -/
structure ParseInput where
  logs : List StdoutBaseError
  parsed_data : List (String × String)
  retrieved_temporary_folder : Option Folder
deriving DecidableEq

/-- The observable outcome of `AverageParser.parse`: the returned exit code
(`none` models the implicit `None` return on success) and the output nodes
registered through `self.out`. -/
structure DecodeOutcome where
  exit_code : Option ExitLabel
  output_parameters : Option (List (String × String))
  output_data : Option (List (List ℚ))
deriving DecidableEq

/-- Embedding of the `try: with open(...)` block of `AverageParser.parse`:
open the fixed output data file inside the retrieved temporary folder and
feed it to `parse_data`, with `OSError` (including `FileNotFoundError` when
the file is absent) mapped to `ERROR_OUTPUT_DATAFILE_READ` and every other
exception mapped to `ERROR_OUTPUT_DATAFILE_PARSE`; `parsed_data` has
already been registered as `output_parameters` at this point. -/
def parseDataFileStage (parsed_data : List (String × String)) (folder : Folder) :
    DecodeOutcome :=
  match List.lookup AverageCalculation._DEFAULT_OUTPUT_DATA_FILE folder with
  | none =>
      ⟨some (.ERROR_OUTPUT_DATAFILE_READ AverageCalculation._DEFAULT_OUTPUT_DATA_FILE),
       some parsed_data, none⟩
  | some .unreadable =>
      ⟨some (.ERROR_OUTPUT_DATAFILE_READ AverageCalculation._DEFAULT_OUTPUT_DATA_FILE),
       some parsed_data, none⟩
  | some (.raisesOther desc) =>
      ⟨some (.ERROR_OUTPUT_DATAFILE_PARSE AverageCalculation._DEFAULT_OUTPUT_DATA_FILE desc),
       some parsed_data, none⟩
  | some (.content rows) =>
      match parse_data rows with
      | .ok data => ⟨none, some parsed_data, some data⟩
      | .error e =>
          ⟨some (.ERROR_OUTPUT_DATAFILE_PARSE AverageCalculation._DEFAULT_OUTPUT_DATA_FILE e),
           some parsed_data, none⟩

/-- Embedding of `AverageParser.parse`.  Stage order follows the source:
stdout grammar and base-error gate (returning via `BaseParser.exit`, which
logs and forwards the exit code without registering outputs), emission of
`output_parameters`, the `retrieved_temporary_folder` lookup in `kwargs`,
then the data file stage (`parseDataFileStage`). -/
def parse (input : ParseInput) : DecodeOutcome :=
  match check_base_errors input.logs with
  | some code => ⟨some code, none, none⟩
  | none =>
    match input.retrieved_temporary_folder with
    | none => ⟨some .ERROR_NO_RETRIEVED_TEMPORARY_FOLDER, some input.parsed_data, none⟩
    | some folder => parseDataFileStage input.parsed_data folder

end AverageParser

namespace AverageParser

/-- Step lemma: a flagged base error short-circuits `parse` through
`BaseParser.exit`, before any output is registered. -/
theorem parse_of_base_error (input : ParseInput) (e : ExitLabel)
    (hbase : check_base_errors input.logs = some e) :
    parse input = ⟨some e, none, none⟩ := by
  simp [parse, hbase]

/-- Step lemma: with clean logs and no temporary folder handle, `parse`
stops at the `kwargs` lookup, after registering `output_parameters`. -/
theorem parse_of_no_folder (input : ParseInput)
    (hbase : check_base_errors input.logs = none)
    (hfolder : input.retrieved_temporary_folder = none) :
    parse input = ⟨some .ERROR_NO_RETRIEVED_TEMPORARY_FOLDER, some input.parsed_data, none⟩ := by
  simp [parse, hbase, hfolder]

/-- Step lemma: with clean logs and a temporary folder supplied, `parse`
runs the data file stage. -/
theorem parse_of_folder (input : ParseInput) (folder : Folder)
    (hbase : check_base_errors input.logs = none)
    (hfolder : input.retrieved_temporary_folder = some folder) :
    parse input = parseDataFileStage input.parsed_data folder := by
  simp [parse, hbase, hfolder]

/-- Helper: the exit codes `AverageParser.parse` can return: success, a
flagged base error, the missing-temporary-folder error, or a datafile read
or parse error carrying the fixed output data file name. -/
theorem parse_exit_code_cases (input : ParseInput) :
    (parse input).exit_code = none ∨
    (∃ b : StdoutBaseError, (parse input).exit_code = some b.exitLabel) ∨
    (parse input).exit_code = some .ERROR_NO_RETRIEVED_TEMPORARY_FOLDER ∨
    (parse input).exit_code = some (.ERROR_OUTPUT_DATAFILE_READ "avg.dat") ∨
    (∃ e, (parse input).exit_code = some (.ERROR_OUTPUT_DATAFILE_PARSE "avg.dat" e)) := by
  cases hb : check_base_errors input.logs with
  | some code =>
    obtain ⟨b, hmem, rfl⟩ := Option.map_eq_some'.mp hb
    rw [parse_of_base_error input _ hb]
    exact Or.inr (Or.inl ⟨b, rfl⟩)
  | none =>
    cases hf : input.retrieved_temporary_folder with
    | none => rw [parse_of_no_folder input hb hf]; simp
    | some folder =>
      rw [parse_of_folder input folder hb hf]
      unfold parseDataFileStage
      cases hl : List.lookup AverageCalculation._DEFAULT_OUTPUT_DATA_FILE folder with
      | none => simp [AverageCalculation._DEFAULT_OUTPUT_DATA_FILE]
      | some fs =>
        cases fs with
        | unreadable => simp [AverageCalculation._DEFAULT_OUTPUT_DATA_FILE]
        | raisesOther desc => simp [AverageCalculation._DEFAULT_OUTPUT_DATA_FILE]
        | content rows =>
          cases hp : parse_data rows with
          | ok data => simp [hp]
          | error e => simp [hp, AverageCalculation._DEFAULT_OUTPUT_DATA_FILE]

end AverageParser

end AiidaQE

namespace AiidaQE

namespace AverageParser

/-- Helper: a line of numeric tokens converts to its values. -/
theorem tokenRowValues_map_some (l : List ℚ) :
    tokenRowValues (l.map some) = some l := by
  induction l with
  | nil => rfl
  | cons x xs ih => simp [tokenRowValues, ih]

/-- Helper: a table of numeric tokens converts to its values. -/
theorem tokenValues_map_some (rows : List (List ℚ)) :
    tokenValues (rows.map (fun r => r.map some)) = some rows := by
  induction rows with
  | nil => rfl
  | cons r rs ih => simp [tokenValues, tokenRowValues_map_some, ih]

/-- Helper: a line containing a non-numeric token fails conversion. -/
theorem tokenRowValues_of_none (l : List (Option ℚ)) (h : none ∈ l) :
    tokenRowValues l = none := by
  induction l with
  | nil => simp at h
  | cons t ts ih =>
    cases t with
    | none => rfl
    | some q =>
      have h2 : none ∈ ts := by
        rcases List.mem_cons.mp h with h1 | h2
        · exact absurd h1.symm (by simp)
        · exact h2
      simp [tokenRowValues, ih h2]

/-- Helper: a table with a non-numeric token fails conversion. -/
theorem tokenValues_of_none (rows : List (List (Option ℚ)))
    (h : ∃ r ∈ rows, none ∈ r) : tokenValues rows = none := by
  induction rows with
  | nil => simp at h
  | cons r rs ih =>
    rcases h with ⟨row, hrow, hnone⟩
    rcases List.mem_cons.mp hrow with h1 | h2
    · subst h1
      simp [tokenValues, tokenRowValues_of_none row hnone]
    · rw [tokenValues]
      cases hr : tokenRowValues r with
      | none => rfl
      | some v => rw [ih ⟨row, h2, hnone⟩]; rfl

/-- Helper: token conversion preserves the length of each line. -/
theorem tokenRowValues_length (l : List (Option ℚ)) (v : List ℚ)
    (h : tokenRowValues l = some v) : v.length = l.length := by
  induction l generalizing v with
  | nil =>
    rw [tokenRowValues] at h
    simp at h
    simp [← h]
  | cons t ts ih =>
    cases t with
    | none => rw [tokenRowValues] at h; simp at h
    | some q =>
      rw [tokenRowValues] at h
      cases hts : tokenRowValues ts with
      | none => rw [hts] at h; simp at h
      | some vs =>
        rw [hts] at h
        simp at h
        rw [← h]
        simp [ih vs hts]

/-- Helper: token conversion preserves the row lengths of the table. -/
theorem tokenValues_lengths (rows : List (List (Option ℚ))) (vals : List (List ℚ))
    (h : tokenValues rows = some vals) :
    vals.map List.length = rows.map List.length := by
  induction rows generalizing vals with
  | nil =>
    rw [tokenValues] at h
    simp at h
    simp [← h]
  | cons r rs ih =>
    rw [tokenValues] at h
    cases hr : tokenRowValues r with
    | none => rw [hr] at h; simp at h
    | some v =>
      rw [hr] at h
      cases hrs : tokenValues rs with
      | none => rw [hrs] at h; simp at h
      | some vs =>
        rw [hrs] at h
        simp at h
        rw [← h]
        simp [tokenRowValues_length r v hr, ih vs hrs]

/-- Helper: on a purely numeric table with at least two rows and a uniform
column count of three, `parse_data` succeeds, converting column 0 by the
Bohr factor and the remaining columns by the Rydberg factor, row by row. -/
theorem parse_data_numeric_ok (rows : List (List ℚ))
    (hN : 2 ≤ rows.length) (hcols : ∀ r ∈ rows, r.length = 3) :
    parse_data (rows.map (fun r => r.map some)) =
      .ok (rows.map (fun r =>
        match r with
        | [] => []
        | x :: rest => x * Bohr :: rest.map (fun y => y * Ry))) := by
  obtain ⟨r, rs, rfl⟩ : ∃ r rs, rows = r :: rs := by
    cases rows with
    | nil => simp at hN
    | cons a as => exact ⟨a, as, rfl⟩
  obtain ⟨r2, rs2, rfl⟩ : ∃ r2 rs2, rs = r2 :: rs2 := by
    cases rs with
    | nil => simp at hN
    | cons a as => exact ⟨a, as, rfl⟩
  have h1 : r.length = 3 := hcols r (by simp)
  have hall : (r2 :: rs2).all (fun row => decide (row.length = r.length)) = true := by
    rw [List.all_eq_true]
    intro row hrow
    simp [hcols row (List.mem_cons_of_mem r hrow), h1]
  rw [parse_data, loadtxt, tokenValues_map_some]
  simp only [hall, if_true]
  rw [if_neg (by omega)]

/-- Helper: a table with a non-numeric token or two rows of different
column counts makes `parse_data` fail. -/
theorem parse_data_error_of_malformed (rows : List (List (Option ℚ)))
    (hbad : (∃ r ∈ rows, none ∈ r) ∨
            (∃ r1 ∈ rows, ∃ r2 ∈ rows, r1.length ≠ r2.length)) :
    ∃ msg, parse_data rows = .error msg := by
  cases htv : tokenValues rows with
  | none =>
    exact ⟨"could not convert string to float", by rw [parse_data, loadtxt, htv]⟩
  | some vals =>
    rcases hbad with hnone | hmix
    · rw [tokenValues_of_none rows hnone] at htv
      simp at htv
    · have hlen := tokenValues_lengths rows vals htv
      obtain ⟨r1, hr1, r2, hr2, hne⟩ := hmix
      cases hv : vals with
      | nil =>
        rw [hv] at hlen
        have : rows = [] := by
          cases rows with
          | nil => rfl
          | cons a as => simp at hlen
        subst this
        simp at hr1
      | cons v vs =>
        have hfalse : vs.all (fun row => decide (row.length = v.length)) = false := by
          by_contra hcon
          have htrue : vs.all (fun row => decide (row.length = v.length)) = true := by
            cases h : vs.all (fun row => decide (row.length = v.length)) with
            | true => rfl
            | false => exact absurd h hcon
          rw [List.all_eq_true] at htrue
          have hconst : ∀ x ∈ rows.map List.length, x = v.length := by
            rw [← hlen, hv]
            intro x hx
            rcases List.mem_cons.mp hx with h1 | h2
            · exact h1
            · obtain ⟨row, hrow, hrx⟩ := List.mem_map.mp h2
              rw [← hrx]
              simpa using htrue row hrow
          have e1 : r1.length = v.length :=
            hconst r1.length (List.mem_map.mpr ⟨r1, hr1, rfl⟩)
          have e2 : r2.length = v.length :=
            hconst r2.length (List.mem_map.mpr ⟨r2, hr2, rfl⟩)
          exact hne (e1.trans e2.symm)
        refine ⟨"Wrong number of columns", ?_⟩
        rw [parse_data, loadtxt, htv, hv]
        simp [hfalse]

end AverageParser

end AiidaQE

namespace AiidaQE

open AverageParser

/-- C5 counterexample: with the stdout file missing and no retrieved
temporary folder supplied, decode returns the stdout-missing base error and
not the missing-temporary-folder error, so the latter does not come
regardless of stdout content. -/
theorem c5_counterexample :
    AverageParser.parse ⟨[.stdout_missing], [("k", "v")], none⟩ =
      ⟨some .ERROR_OUTPUT_STDOUT_MISSING, none, none⟩ ∧
    (AverageParser.parse ⟨[.stdout_missing], [("k", "v")], none⟩).exit_code ≠
      some .ERROR_NO_RETRIEVED_TEMPORARY_FOLDER :=
  ⟨rfl, by decide⟩

/-- C5 amended: when the stdout grammar flags no base error and the caller
supplies no retrieved-temporary-folder handle, decode returns the
missing-temporary-folder error, whatever the parsed stdout content is. -/
theorem c5_no_temporary_folder (input : AverageParser.ParseInput)
    (hbase : AverageParser.check_base_errors input.logs = none)
    (hfolder : input.retrieved_temporary_folder = none) :
    (AverageParser.parse input).exit_code =
      some .ERROR_NO_RETRIEVED_TEMPORARY_FOLDER := by
  rw [parse_of_no_folder input hbase hfolder]

/-- C5 witness: a concrete decode call with clean logs, a non-trivial
stdout record and no temporary folder handle. -/
theorem c5_no_temporary_folder_witness :
    AverageParser.check_base_errors [] = none ∧
    (AverageParser.ParseInput.mk [] [("wall_time", "1s")] none).retrieved_temporary_folder
      = none ∧
    (AverageParser.parse ⟨[], [("wall_time", "1s")], none⟩).exit_code =
      some .ERROR_NO_RETRIEVED_TEMPORARY_FOLDER :=
  ⟨rfl, rfl, c5_no_temporary_folder ⟨[], [("wall_time", "1s")], none⟩ rfl rfl⟩

/-- C6 counterexample: with a base error flagged (incomplete stdout), decode
returns that base error but does not emit the log record as
output_parameters, contrary to the claim. -/
theorem c6_counterexample :
    AverageParser.parse ⟨[.stdout_incomplete], [("job_done", "False")], some []⟩ =
      ⟨some .ERROR_OUTPUT_STDOUT_INCOMPLETE, none, none⟩ ∧
    (AverageParser.parse ⟨[.stdout_incomplete], [("job_done", "False")], some []⟩).output_parameters ≠
      some [("job_done", "False")] :=
  ⟨rfl, by decide⟩

/-- C6 amended: when the stdout grammar flags a base error, decode halts
with that base error and emits neither output_parameters nor output_data. -/
theorem c6_base_error_halts (input : AverageParser.ParseInput) (e : ExitLabel)
    (hbase : AverageParser.check_base_errors input.logs = some e) :
    (AverageParser.parse input).exit_code = some e ∧
    (AverageParser.parse input).output_parameters = none ∧
    (AverageParser.parse input).output_data = none := by
  rw [parse_of_base_error input e hbase]
  exact ⟨rfl, rfl, rfl⟩

/-- C6 witness: a concrete decode call whose logs flag the walltime
interruption. -/
theorem c6_base_error_halts_witness :
    AverageParser.check_base_errors [.out_of_walltime] =
      some .ERROR_OUT_OF_WALLTIME_INTERRUPTED ∧
    ((AverageParser.parse ⟨[.out_of_walltime], [("a", "b")], some []⟩).exit_code =
        some .ERROR_OUT_OF_WALLTIME_INTERRUPTED ∧
      (AverageParser.parse ⟨[.out_of_walltime], [("a", "b")], some []⟩).output_parameters = none ∧
      (AverageParser.parse ⟨[.out_of_walltime], [("a", "b")], some []⟩).output_data = none) :=
  ⟨rfl, c6_base_error_halts ⟨[.out_of_walltime], [("a", "b")], some []⟩ _ rfl⟩

/-- C2 counterexample: a decode call with clean logs and a temporary folder
that lacks avg.dat returns the datafile READ error, not the datafile
MISSING error the claim expects. -/
theorem c2_counterexample :
    (AverageParser.parse ⟨[], [("k", "v")], some [("avg.out", .content [])]⟩).exit_code =
      some (.ERROR_OUTPUT_DATAFILE_READ "avg.dat") ∧
    (AverageParser.parse ⟨[], [("k", "v")], some [("avg.out", .content [])]⟩).exit_code ≠
      some (.ERROR_OUTPUT_DATAFILE_MISSING "avg.dat") :=
  ⟨rfl, by decide⟩

/-- C2 amended: with clean logs, a temporary folder available and the fixed
output data file avg.dat absent from it, decode returns the
ERROR_OUTPUT_DATAFILE_READ error (a missing file raises FileNotFoundError,
an OSError), carrying the exact expected filename in its message. -/
theorem c2_absent_datafile_read (input : AverageParser.ParseInput)
    (folder : AverageParser.Folder)
    (hbase : AverageParser.check_base_errors input.logs = none)
    (hfolder : input.retrieved_temporary_folder = some folder)
    (hfile : List.lookup AverageCalculation._DEFAULT_OUTPUT_DATA_FILE folder = none) :
    (AverageParser.parse input).exit_code =
      some (.ERROR_OUTPUT_DATAFILE_READ "avg.dat") ∧
    ((AverageParser.parse input).exit_code.map ExitLabel.message) =
      some "The formatted data output file `avg.dat` could not be read." := by
  rw [parse_of_folder input folder hbase hfolder, parseDataFileStage, hfile]
  exact ⟨rfl, rfl⟩

/-- C2 witness: a concrete folder holding only the stdout capture. -/
theorem c2_absent_datafile_read_witness :
    AverageParser.check_base_errors [] = none ∧
    List.lookup AverageCalculation._DEFAULT_OUTPUT_DATA_FILE
      ([("avg.out", .content [])] : AverageParser.Folder) = none ∧
    ((AverageParser.parse ⟨[], [], some [("avg.out", .content [])]⟩).exit_code =
        some (.ERROR_OUTPUT_DATAFILE_READ "avg.dat") ∧
      ((AverageParser.parse ⟨[], [], some [("avg.out", .content [])]⟩).exit_code.map
          ExitLabel.message) =
        some "The formatted data output file `avg.dat` could not be read.") :=
  ⟨rfl, rfl, c2_absent_datafile_read ⟨[], [], some [("avg.out", .content [])]⟩
    [("avg.out", .content [])] rfl rfl rfl⟩

end AiidaQE

namespace AiidaQE

open AverageParser

/-- C4 counterexample: an unanticipated (non-OSError) exception raised
while reading the data file is reported as the datafile PARSE error, not as
ERROR_UNEXPECTED_PARSER_EXCEPTION as the claim expects. -/
theorem c4_counterexample :
    (AverageParser.parse ⟨[], [], some [("avg.dat", .raisesOther "MemoryError")]⟩).exit_code =
      some (.ERROR_OUTPUT_DATAFILE_PARSE "avg.dat" "MemoryError") ∧
    (AverageParser.parse ⟨[], [], some [("avg.dat", .raisesOther "MemoryError")]⟩).exit_code ≠
      some (.ERROR_UNEXPECTED_PARSER_EXCEPTION "MemoryError") :=
  ⟨rfl, by decide⟩

/-- C4 amended: decode never returns ERROR_UNEXPECTED_PARSER_EXCEPTION;
an exception not anticipated by the staged pipeline (any non-OSError raised
while opening or parsing the data file) is caught and reported as
ERROR_OUTPUT_DATAFILE_PARSE carrying the exception description.  (Within
the data file stage no exception propagates; the parse function itself has
no catch-all around the earlier stages.) -/
theorem c4_no_unexpected_exception (input : AverageParser.ParseInput) :
    (∀ s, (AverageParser.parse input).exit_code ≠
      some (.ERROR_UNEXPECTED_PARSER_EXCEPTION s)) ∧
    (∀ folder desc,
      AverageParser.check_base_errors input.logs = none →
      input.retrieved_temporary_folder = some folder →
      List.lookup AverageCalculation._DEFAULT_OUTPUT_DATA_FILE folder =
        some (.raisesOther desc) →
      (AverageParser.parse input).exit_code =
        some (.ERROR_OUTPUT_DATAFILE_PARSE "avg.dat" desc)) := by
  constructor
  · intro s hs
    rcases parse_exit_code_cases input with h | ⟨b, h⟩ | h | h | ⟨e, h⟩ <;>
      rw [h] at hs
    · exact Option.noConfusion hs
    · cases b <;> simp [StdoutBaseError.exitLabel] at hs
    · simp at hs
    · simp at hs
    · simp at hs
  · intro folder desc hbase hfolder hfile
    have hfile2 : List.lookup "avg.dat" folder = some (.raisesOther desc) := hfile
    rw [parse_of_folder input folder hbase hfolder]
    simp [parseDataFileStage, hfile2, AverageCalculation._DEFAULT_OUTPUT_DATA_FILE]

/-- C4 witness: the amended theorem applied to a concrete decode call whose
data file read raises a non-OSError exception. -/
theorem c4_no_unexpected_exception_witness :
    AverageParser.check_base_errors [] = none ∧
    List.lookup AverageCalculation._DEFAULT_OUTPUT_DATA_FILE
      ([("avg.dat", .raisesOther "KeyboardInterrupt")] : AverageParser.Folder) =
      some (.raisesOther "KeyboardInterrupt") ∧
    (AverageParser.parse
        ⟨[], [], some [("avg.dat", .raisesOther "KeyboardInterrupt")]⟩).exit_code =
      some (.ERROR_OUTPUT_DATAFILE_PARSE "avg.dat" "KeyboardInterrupt") :=
  ⟨rfl, rfl,
    (c4_no_unexpected_exception
      ⟨[], [], some [("avg.dat", .raisesOther "KeyboardInterrupt")]⟩).2
      [("avg.dat", .raisesOther "KeyboardInterrupt")] "KeyboardInterrupt" rfl rfl rfl⟩

/-- C10: decode never returns ERROR_OUTPUT_DATAFILE_MISSING,
ERROR_UNSUPPORTED_DATAFILE_FORMAT or ERROR_OUTPUT_XML_MISSING; a missing
data file is caught by the OSError branch and reported as the READ error
with the fixed filename. -/
theorem c10_unreachable_exit_codes (input : AverageParser.ParseInput) :
    (∀ f, (AverageParser.parse input).exit_code ≠
      some (.ERROR_OUTPUT_DATAFILE_MISSING f)) ∧
    (AverageParser.parse input).exit_code ≠ some .ERROR_UNSUPPORTED_DATAFILE_FORMAT ∧
    (AverageParser.parse input).exit_code ≠ some .ERROR_OUTPUT_XML_MISSING ∧
    (∀ folder,
      AverageParser.check_base_errors input.logs = none →
      input.retrieved_temporary_folder = some folder →
      List.lookup AverageCalculation._DEFAULT_OUTPUT_DATA_FILE folder = none →
      (AverageParser.parse input).exit_code =
        some (.ERROR_OUTPUT_DATAFILE_READ "avg.dat")) := by
  refine ⟨?_, ?_, ?_, ?_⟩
  · intro f hs
    rcases parse_exit_code_cases input with h | ⟨b, h⟩ | h | h | ⟨e, h⟩ <;>
      rw [h] at hs
    · exact Option.noConfusion hs
    · cases b <;> simp [StdoutBaseError.exitLabel] at hs
    · simp at hs
    · simp at hs
    · simp at hs
  · intro hs
    rcases parse_exit_code_cases input with h | ⟨b, h⟩ | h | h | ⟨e, h⟩ <;>
      rw [h] at hs
    · exact Option.noConfusion hs
    · cases b <;> simp [StdoutBaseError.exitLabel] at hs
    · simp at hs
    · simp at hs
    · simp at hs
  · intro hs
    rcases parse_exit_code_cases input with h | ⟨b, h⟩ | h | h | ⟨e, h⟩ <;>
      rw [h] at hs
    · exact Option.noConfusion hs
    · cases b <;> simp [StdoutBaseError.exitLabel] at hs
    · simp at hs
    · simp at hs
    · simp at hs
  · intro folder hbase hfolder hfile
    have hfile2 : List.lookup "avg.dat" folder = none := hfile
    rw [parse_of_folder input folder hbase hfolder]
    simp [parseDataFileStage, hfile2, AverageCalculation._DEFAULT_OUTPUT_DATA_FILE]

/-- C10 witness: the last conjunct applied to a concrete decode call whose
temporary folder is empty. -/
theorem c10_unreachable_exit_codes_witness :
    AverageParser.check_base_errors [] = none ∧
    List.lookup AverageCalculation._DEFAULT_OUTPUT_DATA_FILE
      ([] : AverageParser.Folder) = none ∧
    (AverageParser.parse ⟨[], [("x", "y")], some []⟩).exit_code =
      some (.ERROR_OUTPUT_DATAFILE_READ "avg.dat") :=
  ⟨rfl, rfl,
    (c10_unreachable_exit_codes ⟨[], [("x", "y")], some []⟩).2.2.2 [] rfl rfl rfl⟩

/-- C7: a data file whose table holds a non-numeric token, or two rows with
different column counts, makes decode return the datafile PARSE error
carrying the fixed filename and the parse exception message. -/
theorem c7_malformed_datafile (input : AverageParser.ParseInput)
    (folder : AverageParser.Folder) (rows : List (List (Option ℚ)))
    (hbase : AverageParser.check_base_errors input.logs = none)
    (hfolder : input.retrieved_temporary_folder = some folder)
    (hfile : List.lookup AverageCalculation._DEFAULT_OUTPUT_DATA_FILE folder =
      some (.content rows))
    (hbad : (∃ r ∈ rows, none ∈ r) ∨
            (∃ r1 ∈ rows, ∃ r2 ∈ rows, r1.length ≠ r2.length)) :
    ∃ msg, (AverageParser.parse input).exit_code =
      some (.ERROR_OUTPUT_DATAFILE_PARSE "avg.dat" msg) := by
  obtain ⟨msg, hmsg⟩ := parse_data_error_of_malformed rows hbad
  refine ⟨msg, ?_⟩
  have hfile2 : List.lookup "avg.dat" folder = some (.content rows) := hfile
  rw [parse_of_folder input folder hbase hfolder]
  simp [parseDataFileStage, hfile2, hmsg, AverageCalculation._DEFAULT_OUTPUT_DATA_FILE]

/-- C7 witness: a concrete data file whose middle token is non-numeric. -/
theorem c7_malformed_datafile_witness :
    AverageParser.check_base_errors [] = none ∧
    List.lookup AverageCalculation._DEFAULT_OUTPUT_DATA_FILE
      ([("avg.dat", .content [[some 1, none, some 3], [some 4, some 5, some 6]])] :
        AverageParser.Folder) =
      some (.content [[some 1, none, some 3], [some 4, some 5, some 6]]) ∧
    ∃ msg,
      (AverageParser.parse ⟨[], [],
          some [("avg.dat", .content [[some 1, none, some 3], [some 4, some 5, some 6]])]⟩).exit_code =
        some (.ERROR_OUTPUT_DATAFILE_PARSE "avg.dat" msg) :=
  ⟨rfl, rfl,
    c7_malformed_datafile
      ⟨[], [], some [("avg.dat", .content [[some 1, none, some 3], [some 4, some 5, some 6]])]⟩
      [("avg.dat", .content [[some 1, none, some 3], [some 4, some 5, some 6]])]
      [[some 1, none, some 3], [some 4, some 5, some 6]] rfl rfl rfl
      (Or.inl ⟨[some 1, none, some 3], by simp, by simp⟩)⟩

end AiidaQE

namespace AiidaQE

open AverageParser
open AverageCalculation

/-- C1 counterexample: a well-formed whitespace table of exactly 3 numeric
columns but a single row (N = 1) makes decode fail with the datafile PARSE
error (np.loadtxt squeezes a single row to a one-dimensional array and the
column indexing raises IndexError), instead of succeeding as the claim
states for every N >= 0. -/
theorem c1_counterexample :
    ([[some 1, some 2, some 3]] : List (List (Option ℚ))).length = 1 ∧
    (∀ r ∈ ([[some 1, some 2, some 3]] : List (List (Option ℚ))), r.length = 3) ∧
    AverageParser.parse ⟨[], [("k", "v")],
        some [("avg.dat", .content [[some 1, some 2, some 3]])]⟩ =
      ⟨some (.ERROR_OUTPUT_DATAFILE_PARSE "avg.dat" "too many indices for array"),
       some [("k", "v")], none⟩ :=
  ⟨rfl, by decide, rfl⟩

/-- C1 amended: for a well-formed 3-column numeric table with N >= 2 rows,
decode succeeds and produces an N-row table preserving row order, with
column 0 multiplied by 0.52917721067 and columns 1 and 2 multiplied by
13.605693009. -/
theorem c1_decode_numeric_table (input : AverageParser.ParseInput)
    (folder : AverageParser.Folder) (rows : List (List ℚ))
    (hbase : AverageParser.check_base_errors input.logs = none)
    (hfolder : input.retrieved_temporary_folder = some folder)
    (hfile : List.lookup AverageCalculation._DEFAULT_OUTPUT_DATA_FILE folder =
      some (.content (rows.map (fun r => r.map some))))
    (hN : 2 ≤ rows.length) (hcols : ∀ r ∈ rows, r.length = 3) :
    (AverageParser.parse input).exit_code = none ∧
    (AverageParser.parse input).output_parameters = some input.parsed_data ∧
    ∃ d, (AverageParser.parse input).output_data = some d ∧
      d.length = rows.length ∧
      ∀ (i : Nat) (x y z : ℚ), rows[i]? = some [x, y, z] →
        d[i]? = some [x * Bohr, y * Ry, z * Ry] := by
  have hok := parse_data_numeric_ok rows hN hcols
  have hfile2 : List.lookup "avg.dat" folder =
      some (.content (rows.map (fun r => r.map some))) := hfile
  rw [parse_of_folder input folder hbase hfolder]
  simp only [parseDataFileStage, AverageCalculation._DEFAULT_OUTPUT_DATA_FILE,
    hfile2, hok]
  refine ⟨trivial, trivial, _, rfl, by simp, ?_⟩
  intro i x y z hi
  rw [List.getElem?_map, hi]
  rfl

/-- C1 witness: the amended theorem applied to a concrete two-row data
file. -/
theorem c1_decode_numeric_table_witness :
    AverageParser.check_base_errors [] = none ∧
    2 ≤ ([[1, 2, 3], [4, 5, 6]] : List (List ℚ)).length ∧
    (∀ r ∈ ([[1, 2, 3], [4, 5, 6]] : List (List ℚ)), r.length = 3) ∧
    ((AverageParser.parse ⟨[], [("fermi", "1")],
        some [("avg.dat",
          .content [[some 1, some 2, some 3], [some 4, some 5, some 6]])]⟩).exit_code
        = none ∧
      (AverageParser.parse ⟨[], [("fermi", "1")],
        some [("avg.dat",
          .content [[some 1, some 2, some 3], [some 4, some 5, some 6]])]⟩).output_parameters
        = some [("fermi", "1")] ∧
      ∃ d, (AverageParser.parse ⟨[], [("fermi", "1")],
        some [("avg.dat",
          .content [[some 1, some 2, some 3], [some 4, some 5, some 6]])]⟩).output_data
          = some d ∧
        d.length = ([[1, 2, 3], [4, 5, 6]] : List (List ℚ)).length ∧
        ∀ (i : Nat) (x y z : ℚ), (([[1, 2, 3], [4, 5, 6]] : List (List ℚ)))[i]? = some [x, y, z] →
          d[i]? = some [x * Bohr, y * Ry, z * Ry]) :=
  ⟨rfl, by decide, by decide,
    c1_decode_numeric_table
      ⟨[], [("fermi", "1")],
        some [("avg.dat", .content [[some 1, some 2, some 3], [some 4, some 5, some 6]])]⟩
      [("avg.dat", .content [[some 1, some 2, some 3], [some 4, some 5, some 6]])]
      [[1, 2, 3], [4, 5, 6]] rfl rfl rfl (by decide) (by decide)⟩

/-- C3: for every parameter set, the composed input file is exactly six
lines in fixed order: the constant 1, the fixed input data filename, the
fixed scaling constant 1.D0, npts in decimal, average_axis in decimal, and
window_size converted from Angstrom to Bohr with eight decimal digits. -/
theorem c3_input_file_lines (p : AverageCalculation.AverageInputs) :
    (AverageCalculation.prepare_for_submission p).2 =
      AverageCalculation.inputFileLines p ∧
    (AverageCalculation.inputFileLines p).length = 6 ∧
    (AverageCalculation.inputFileLines p)[0]? = some "1" ∧
    (AverageCalculation.inputFileLines p)[1]? = some "aiida.filplot" ∧
    (AverageCalculation.inputFileLines p)[2]? = some "1.D0" ∧
    (AverageCalculation.inputFileLines p)[3]? = some (toString p.npts) ∧
    (AverageCalculation.inputFileLines p)[4]? = some (toString p.average_axis) ∧
    (AverageCalculation.inputFileLines p)[5]? = some (format8f (p.window_size / Bohr)) :=
  ⟨rfl, rfl, rfl, rfl, rfl, rfl, rfl, rfl⟩

/-- C9: for every parameter set, the staging plan requests exactly the
copy-in of the fixed input data file, the permanent retrieval of the
stdout capture of the code, and the temporary retrieval of the fixed output
data file. -/
theorem c9_staging_plan (p : AverageCalculation.AverageInputs) :
    (AverageCalculation.prepare_for_submission p).1.remote_copy_list =
      ["aiida.filplot"] ∧
    (AverageCalculation.prepare_for_submission p).1.local_copy_list = [] ∧
    (AverageCalculation.prepare_for_submission p).1.codes_info =
      [⟨p.input_filename, p.output_filename⟩] ∧
    (AverageCalculation.prepare_for_submission p).1.retrieve_list =
      [p.output_filename] ∧
    (AverageCalculation.prepare_for_submission p).1.retrieve_temporary_list =
      ["avg.dat"] :=
  ⟨rfl, rfl, rfl, rfl, rfl⟩

end AiidaQE

namespace AiidaQE

/-- C8 counterexample: for average_axis=3, npts=500, window_size=5.0 the
emitted line 6 is the string 9.44863063 and not 9.44863062 as the claim
states: 5.0/0.52917721067 = 9.448630627... , which rounds up at the eighth
decimal (the claimed value truncates instead of rounding). -/
theorem c8_counterexample :
    (AverageCalculation.inputFileLines ⟨500, 3, 5, "avg.in", "avg.out"⟩)[5]? =
      some "9.44863063" ∧
    (AverageCalculation.inputFileLines ⟨500, 3, 5, "avg.in", "avg.out"⟩)[5]? ≠
      some "9.44863062" := by
  have hr : round ((5 : ℚ) / Bohr * 100000000) = 944863063 := by
    norm_num [round_eq, Bohr]
  have h5 : (AverageCalculation.inputFileLines ⟨500, 3, 5, "avg.in", "avg.out"⟩)[5]? =
      some (formatFixed8 (round ((5 : ℚ) / Bohr * 100000000))) := rfl
  rw [h5, hr]
  exact ⟨by decide, by decide⟩

/-- C8 amended: for the scenario average_axis=3, npts=500, window_size=5.0
the emitted input file has line 4 = 500, line 5 = 3 and line 6 = 9.44863063
(5.0 divided by 0.52917721067 rounded to 8 decimals); and for every
window_size > 0, line 6 carries the eight-decimal rendering of
window_size/0.52917721067, whose denoted value multiplied back by the
Bohr factor recovers window_size within 1e-6. -/
theorem c8_window_roundtrip (w : ℚ) (hw : 0 < w) :
    (AverageCalculation.inputFileLines ⟨500, 3, w, "avg.in", "avg.out"⟩)[5]? =
      some (format8f (w / Bohr)) ∧
    |value8f (w / Bohr) * Bohr - w| ≤ 1 / 1000000 ∧
    (AverageCalculation.inputFileLines ⟨500, 3, 5, "avg.in", "avg.out"⟩)[3]? =
      some "500" ∧
    (AverageCalculation.inputFileLines ⟨500, 3, 5, "avg.in", "avg.out"⟩)[4]? =
      some "3" ∧
    (AverageCalculation.inputFileLines ⟨500, 3, 5, "avg.in", "avg.out"⟩)[5]? =
      some "9.44863063" := by
  have hb : (0 : ℚ) < Bohr := by norm_num [Bohr]
  refine ⟨rfl, ?_, by decide, by decide, ?_⟩
  · have heq : value8f (w / Bohr) * Bohr - w =
        (value8f (w / Bohr) - w / Bohr) * Bohr := by
      field_simp
    rw [heq, abs_mul, abs_of_pos hb]
    have h2 : |value8f (w / Bohr) - w / Bohr| ≤ 1 / 200000000 := by
      have h3 : value8f (w / Bohr) - w / Bohr =
          ((round (w / Bohr * 100000000) : ℚ) - w / Bohr * 100000000) / 100000000 := by
        rw [value8f]; ring
      rw [h3, abs_div, abs_of_pos (show (0 : ℚ) < 100000000 by norm_num)]
      have h4 := abs_sub_round ((w / Bohr) * 100000000)
      rw [abs_sub_comm] at h4
      calc |(round (w / Bohr * 100000000) : ℚ) - w / Bohr * 100000000| / 100000000
          ≤ (1 / 2) / 100000000 := by gcongr
        _ = 1 / 200000000 := by norm_num
    calc |value8f (w / Bohr) - w / Bohr| * Bohr ≤ (1 / 200000000) * Bohr := by
          exact mul_le_mul_of_nonneg_right h2 (le_of_lt hb)
      _ ≤ 1 / 1000000 := by norm_num [Bohr]
  · have hr : round ((5 : ℚ) / Bohr * 100000000) = 944863063 := by
      norm_num [round_eq, Bohr]
    have h5 : (AverageCalculation.inputFileLines ⟨500, 3, 5, "avg.in", "avg.out"⟩)[5]? =
        some (formatFixed8 (round ((5 : ℚ) / Bohr * 100000000))) := rfl
    rw [h5, hr]
    decide

/-- C8 witness: the amended theorem applied at window_size = 5. -/
theorem c8_window_roundtrip_witness :
    (0 : ℚ) < 5 ∧
    |value8f ((5 : ℚ) / Bohr) * Bohr - 5| ≤ 1 / 1000000 :=
  ⟨by norm_num, (c8_window_roundtrip 5 (by norm_num)).2.1⟩

end AiidaQE
